import Mathlib

/-!
Verification of the streaming video receiver of the Driver repository
(`src/includes/videoscreenreciever.hpp` + `src/sources/videoscreenreciever.cpp`).

The development shallowly embeds the receiver: the GStreamer library is a
black box whose outcomes (pipeline construction, sink lookup, state changes,
bus messages, samples) are explicit inputs, and the receiver state
(`VideoStreamReceiver` member variables) is an explicit record.  Qt signal
emissions are returned as lists.  Each operation of the source is one Lean
function; the consumer-context lambda queued by `processNewSample` is
embedded separately (`applyFrame`) because it runs asynchronously.
-/

namespace Driver

/-- An RGB pixel: one byte per channel (values as naturals). -/
abbrev Pixel := Nat × Nat × Nat

/-- Model of `QImage` (Format_RGB888): width, height and the pixel rows. -/
structure QImage where
  width : Nat
  height : Nat
  pixels : List (List Pixel)
deriving DecidableEq

/-- `QImage(w, h, Format_RGB888)` followed by `fill(color)`: a solid image. -/
def QImage.mkSolid (w h : Nat) (c : Pixel) : QImage :=
  { width := w, height := h, pixels := List.replicate h (List.replicate w c) }

/-- Pixel lookup (out-of-range coordinates give a dummy black pixel). -/
def QImage.pixelAt (img : QImage) (x y : Nat) : Pixel :=
  (img.pixels.getD y []).getD x (0, 0, 0)

/-- `QImage(map.data, width, height, stride, Format_RGB888).copy()`:
row `y` starts at byte `y * stride`, pixel `x` occupies bytes
`3*x`, `3*x+1`, `3*x+2` of the row. The `.copy()` is a deep copy, so the
resulting image owns its bytes (here: a pure value). -/
def imageFromBuffer (data : List Nat) (width height stride : Nat) : QImage :=
  { width := width, height := height,
    pixels := (List.range height).map fun y =>
      (List.range width).map fun x =>
        (data.getD (y * stride + 3 * x) 0,
         data.getD (y * stride + 3 * x + 1) 0,
         data.getD (y * stride + 3 * x + 2) 0) }

/-- `QImage::mirrored(horizontal, vertical)`. -/
def QImage.mirrored (img : QImage) (horizontal vertical : Bool) : QImage :=
  { width := img.width, height := img.height,
    pixels :=
      (fun rows => if vertical then rows.reverse else rows)
        (img.pixels.map fun r => if horizontal then r.reverse else r) }

/-- `GstVideoInfo` fields used by `processNewSample` (from
`gst_video_info_from_caps`). -/
structure GstVideoInfo where
  width : Nat
  height : Nat
  stride : Nat
deriving DecidableEq

/-- `GstCaps` as far as the receiver consumes them: the parse result of
`gst_video_info_from_caps` (`none` when parsing fails). -/
structure GstCaps where
  videoInfo : Option GstVideoInfo
deriving DecidableEq

/-- A `GstSample`: buffer bytes (`none` when `gst_sample_get_buffer` is null),
caps (`none` when `gst_sample_get_caps` is null), and whether
`gst_buffer_map` succeeds. -/
structure GstSample where
  buffer : Option (List Nat)
  caps : Option GstCaps
  mapOk : Bool
deriving DecidableEq

/-- `VideoStreamReceiver::processNewSample` (producer side, GStreamer thread):
validates buffer/caps, parses video info, maps the buffer, deep-copies the
bytes into a `QImage` and mirrors it both ways.  Returns the image that is
queued to the consumer context (`some`) or `none` when the frame is silently
discarded. -/
def processNewSample (sample : GstSample) : Option QImage :=
  match sample.buffer, sample.caps with
  | some data, some caps =>
    match caps.videoInfo with
    | some vi =>
      if sample.mapOk then
        some ((imageFromBuffer data vi.width vi.height vi.stride).mirrored true true)
      else
        none
    | none => none
  | _, _ => none

/-- The Qt signals of `VideoStreamReceiver`. -/
inductive Signal where
  | frameChanged
  | streamingChanged
  | statusChanged
  | hasActiveStreamChanged
  | errorOccurred (message : String)
deriving DecidableEq

/-- A constructed pipeline: an allocation handle (for resource bookkeeping)
and the UDP port substituted into the launch description. -/
structure Pipe where
  handle : Nat
  port : Nat
deriving DecidableEq

/-- The member variables of `VideoStreamReceiver`.  `live` is ghost state:
the handles of pipelines allocated by `gst_parse_launch` and not yet released
by `gst_object_unref` (leak bookkeeping). -/
structure ReceiverState where
  pipeline : Option Pipe
  appsink : Bool
  bus : Bool
  currentImage : QImage
  frameId : String
  status : String
  frameCounter : Nat
  isStreaming : Bool
  hasActiveStream : Bool
  busTimer : Bool
  frameTimeoutTimer : Bool
  lastFrameTime : Int
  live : List Nat
deriving DecidableEq

/-- `VideoStreamReceiver::setStatus`: update and emit only on change. -/
def setStatus (s : ReceiverState) (status : String) : ReceiverState × List Signal :=
  if s.status ≠ status then
    ({ s with status := status }, [Signal.statusChanged])
  else
    (s, [])

/-- `VideoStreamReceiver::setStreaming`: update and emit only on change. -/
def setStreaming (s : ReceiverState) (streaming : Bool) : ReceiverState × List Signal :=
  if s.isStreaming ≠ streaming then
    ({ s with isStreaming := streaming }, [Signal.streamingChanged])
  else
    (s, [])

/-- `VideoStreamReceiver::setHasActiveStream`: update and emit only on change. -/
def setHasActiveStream (s : ReceiverState) (hasActiveStream : Bool) : ReceiverState × List Signal :=
  if s.hasActiveStream ≠ hasActiveStream then
    ({ s with hasActiveStream := hasActiveStream }, [Signal.hasActiveStreamChanged])
  else
    (s, [])

/-- `VideoStreamReceiver::stopStream`: with a pipeline, stop both timers,
flush the bus, set the pipeline to NULL state, release appsink, bus and
pipeline, then set `isStreaming = false`, `hasActiveStream = false`,
status `"Stopped"`.  Without a pipeline: nothing. -/
def stopStream (s : ReceiverState) : ReceiverState × List Signal :=
  match s.pipeline with
  | some p =>
    let s1 : ReceiverState :=
      { s with busTimer := false, frameTimeoutTimer := false,
               appsink := false, bus := false,
               pipeline := none, live := s.live.erase p.handle }
    let r2 := setStreaming s1 false
    let r3 := setHasActiveStream r2.1 false
    let r4 := setStatus r3.1 "Stopped"
    (r4.1, r2.2 ++ r3.2 ++ r4.2)
  | none => (s, [])

/-- The outcomes of the GStreamer calls made by `startStream`:
`gst_parse_launch` (error message, or the handle of the freshly constructed
pipeline — on error the call yields no pipeline), `gst_bin_get_by_name "sink"`
and `gst_element_set_state PLAYING`. -/
structure GstEnv where
  parseResult : Except String Nat
  sinkFound : Bool
  stateChangeOk : Bool

/-- `VideoStreamReceiver::startStream(port)`, following the source line by
line: stop an existing pipeline, status `"Starting stream..."`, parse the
launch description (on error: emit `errorOccurred`, status `"Error: <msg>"`,
return), look up the appsink (on failure: status
`"Error: Failed to initialize"`, release the pipeline, return), install
callbacks, take the bus, start both timers, reset `lastFrameTime`, clear
`hasActiveStream`, set the pipeline PLAYING (on failure: status
`"Error: Failed to start"`, emit `errorOccurred`, `stopStream`, return), and
on success set `isStreaming = true` and status `"Streaming on port <port>"`. -/
def startStream (s : ReceiverState) (port : Nat) (env : GstEnv) : ReceiverState × List Signal :=
  let r0 := if s.pipeline.isSome then stopStream s else (s, [])
  let r1 := setStatus r0.1 "Starting stream..."
  match env.parseResult with
  | Except.error msg =>
    let s2 : ReceiverState := { r1.1 with pipeline := none }
    let errorMsg := "Failed to create pipeline: " ++ msg
    let r2 := setStatus s2 ("Error: " ++ msg)
    (r2.1, r0.2 ++ r1.2 ++ [Signal.errorOccurred errorMsg] ++ r2.2)
  | Except.ok h =>
    let s2 : ReceiverState :=
      { r1.1 with pipeline := some { handle := h, port := port },
                  live := r1.1.live ++ [h] }
    let s3 : ReceiverState := { s2 with appsink := env.sinkFound }
    if env.sinkFound then
      let s4 : ReceiverState :=
        { s3 with bus := true, busTimer := true, frameTimeoutTimer := true,
                  lastFrameTime := 0 }
      let r2 := setHasActiveStream s4 false
      if env.stateChangeOk then
        let r3 := setStreaming r2.1 true
        let r4 := setStatus r3.1 ("Streaming on port " ++ Nat.repr port)
        (r4.1, r0.2 ++ r1.2 ++ r2.2 ++ r3.2 ++ r4.2)
      else
        let r3 := setStatus r2.1 "Error: Failed to start"
        let r4 := stopStream r3.1
        (r4.1, r0.2 ++ r1.2 ++ r2.2 ++ r3.2
                 ++ [Signal.errorOccurred "Failed to start stream"] ++ r4.2)
    else
      let r2 := setStatus s3 "Error: Failed to initialize"
      let s4 : ReceiverState :=
        { r2.1 with live := r2.1.live.erase h, pipeline := none }
      (s4, r0.2 ++ r1.2 ++ r2.2)

/-- The consumer-context lambda queued (Qt::QueuedConnection) by
`processNewSample`: store the image, bump the frame counter, derive the
frame id string, record the frame timestamp, flip `hasActiveStream` on when
it was off (with status `"Streaming (receiving frames)"`), and emit
`frameChanged`. -/
def applyFrame (s : ReceiverState) (newImage : QImage) (now : Int) : ReceiverState × List Signal :=
  let s1 : ReceiverState := { s with currentImage := newImage }
  let s2 : ReceiverState := { s1 with frameCounter := s1.frameCounter + 1 }
  let s3 : ReceiverState := { s2 with frameId := "frame_" ++ Nat.repr s2.frameCounter }
  let s4 : ReceiverState := { s3 with lastFrameTime := now }
  let r5 :=
    if ¬ s4.hasActiveStream then
      let a := setHasActiveStream s4 true
      let b := setStatus a.1 "Streaming (receiving frames)"
      (b.1, a.2 ++ b.2)
    else
      (s4, [])
  (r5.1, r5.2 ++ [Signal.frameChanged])

/-- The bus messages the receiver dispatches on (`GST_MESSAGE_TYPE`). -/
inductive GstMessage where
  | error (message : String)
  | warning (message : String)
  | eos
  | stateChanged (fromPipeline : Bool)
  | other
deriving DecidableEq

/-- `VideoStreamReceiver::handleBusMessage`: errors set status
`"Error: <msg>"` and emit `errorOccurred("GStreamer error: <msg>")`;
warnings and state changes are logged only; end-of-stream sets status
`"Stream ended"`; everything else is ignored. -/
def handleBusMessage (s : ReceiverState) (message : GstMessage) : ReceiverState × List Signal :=
  match message with
  | GstMessage.error msg =>
    let errorMsg := "GStreamer error: " ++ msg
    let r := setStatus s ("Error: " ++ msg)
    (r.1, r.2 ++ [Signal.errorOccurred errorMsg])
  | GstMessage.warning _ => (s, [])
  | GstMessage.eos => setStatus s "Stream ended"
  | GstMessage.stateChanged _ => (s, [])
  | GstMessage.other => (s, [])

/-- `VideoStreamReceiver::checkBusMessages` (bus-poll tick): defensively
no-op when bus, timer or pipeline is gone, otherwise drain all pending
messages through `handleBusMessage`. -/
def checkBusMessages (s : ReceiverState) (messages : List GstMessage) : ReceiverState × List Signal :=
  if ¬ s.bus ∨ ¬ s.busTimer ∨ s.pipeline.isNone then
    (s, [])
  else
    messages.foldl
      (fun acc m =>
        let r := handleBusMessage acc.1 m
        (r.1, acc.2 ++ r.2))
      (s, [])

/-- `VideoStreamReceiver::checkFrameTimeout` (1 s tick): no-op unless
streaming with a pipeline and a timeout timer; when no frame was ever
received, drop `hasActiveStream` with status `"Waiting for video stream..."`;
otherwise, when more than 3000 ms passed since the last frame, drop
`hasActiveStream` with status `"No video stream (timeout)"`. -/
def checkFrameTimeout (s : ReceiverState) (now : Int) : ReceiverState × List Signal :=
  if ¬ s.isStreaming ∨ s.pipeline.isNone ∨ ¬ s.frameTimeoutTimer then
    (s, [])
  else if s.lastFrameTime = 0 then
    if s.hasActiveStream then
      let r1 := setHasActiveStream s false
      let r2 := setStatus r1.1 "Waiting for video stream..."
      (r2.1, r1.2 ++ r2.2)
    else
      (s, [])
  else
    -- timeSinceLastFrame = currentTime - m_lastFrameTime
    if now - s.lastFrameTime > 3000 then
      if s.hasActiveStream then
        let r1 := setHasActiveStream s false
        let r2 := setStatus r1.1 "No video stream (timeout)"
        (r2.1, r1.2 ++ r2.2)
      else
        (s, [])
    else
      (s, [])

/-- The `VideoStreamReceiver` constructor: null pipeline/appsink/bus, frame
counter 0, not streaming, no active stream, no timers, `lastFrameTime = 0`,
frame id `"placeholder"`, a 640x480 black placeholder image, and
`setStatus("Ready")` on the default-constructed (empty) status string. -/
def initialState : ReceiverState :=
  let s : ReceiverState :=
    { pipeline := none, appsink := false, bus := false,
      currentImage := QImage.mkSolid 640 480 (0, 0, 0),
      frameId := "placeholder",
      status := "",
      frameCounter := 0, isStreaming := false, hasActiveStream := false,
      busTimer := false, frameTimeoutTimer := false, lastFrameTime := 0,
      live := [] }
  (setStatus s "Ready").1

/-- `VideoImageProvider::requestImage`: the id and requested size are
ignored; the receiver image is returned and `*size` is filled with its
dimensions. -/
def requestImage (s : ReceiverState) (_id : String) (_requestedSize : Nat × Nat) :
    QImage × (Nat × Nat) :=
  (s.currentImage, (s.currentImage.width, s.currentImage.height))

/-- States reachable by the receiver: the constructor state, followed by any
interleaving of `startStream`, `stopStream`, queued frame hand-off
applications, timeout ticks and bus-poll ticks (with arbitrary library
outcomes). -/
inductive Reach : ReceiverState → Prop where
  | init : Reach initialState
  | start (s : ReceiverState) (port : Nat) (env : GstEnv) :
      Reach s → Reach (startStream s port env).1
  | stop (s : ReceiverState) : Reach s → Reach (stopStream s).1
  | frame (s : ReceiverState) (img : QImage) (now : Int) :
      Reach s → Reach (applyFrame s img now).1
  | timeout (s : ReceiverState) (now : Int) :
      Reach s → Reach (checkFrameTimeout s now).1
  | bus (s : ReceiverState) (msgs : List GstMessage) :
      Reach s → Reach (checkBusMessages s msgs).1

/-! ### Characterizations of the state setters and operations -/

theorem setStatus_fst (s : ReceiverState) (v : String) :
    (setStatus s v).1 = { s with status := v } := by
  unfold setStatus
  split
  · rfl
  · next h =>
    have hv : s.status = v := not_ne_iff.mp h
    cases hv
    rfl

theorem setStatus_snd (s : ReceiverState) (v : String) :
    (setStatus s v).2 = if s.status = v then [] else [Signal.statusChanged] := by
  unfold setStatus
  split <;> simp_all

theorem setStreaming_fst (s : ReceiverState) (b : Bool) :
    (setStreaming s b).1 = { s with isStreaming := b } := by
  unfold setStreaming
  split
  · rfl
  · next h =>
    have hv : s.isStreaming = b := not_ne_iff.mp h
    cases hv
    rfl

theorem setStreaming_snd (s : ReceiverState) (b : Bool) :
    (setStreaming s b).2 = if s.isStreaming = b then [] else [Signal.streamingChanged] := by
  unfold setStreaming
  split <;> simp_all

theorem setHasActiveStream_fst (s : ReceiverState) (b : Bool) :
    (setHasActiveStream s b).1 = { s with hasActiveStream := b } := by
  unfold setHasActiveStream
  split
  · rfl
  · next h =>
    have hv : s.hasActiveStream = b := not_ne_iff.mp h
    cases hv
    rfl

theorem setHasActiveStream_snd (s : ReceiverState) (b : Bool) :
    (setHasActiveStream s b).2 =
      if s.hasActiveStream = b then [] else [Signal.hasActiveStreamChanged] := by
  unfold setHasActiveStream
  split <;> simp_all

theorem stopStream_none (s : ReceiverState) (h : s.pipeline = none) :
    stopStream s = (s, []) := by
  unfold stopStream
  rw [h]

theorem stopStream_some (s : ReceiverState) (p : Pipe) (h : s.pipeline = some p) :
    (stopStream s).1 =
      { s with busTimer := false, frameTimeoutTimer := false,
               appsink := false, bus := false,
               pipeline := none, live := s.live.erase p.handle,
               isStreaming := false, hasActiveStream := false,
               status := "Stopped" } := by
  unfold stopStream
  rw [h]
  simp [setStreaming_fst, setHasActiveStream_fst, setStatus_fst]

theorem stopStream_fst (s : ReceiverState) :
    (stopStream s).1 =
      match s.pipeline with
      | some p =>
        { s with busTimer := false, frameTimeoutTimer := false,
                 appsink := false, bus := false,
                 pipeline := none, live := s.live.erase p.handle,
                 isStreaming := false, hasActiveStream := false,
                 status := "Stopped" }
      | none => s := by
  cases h : s.pipeline with
  | none => rw [stopStream_none s h]
  | some p => rw [stopStream_some s p h]

theorem applyFrame_fst (s : ReceiverState) (img : QImage) (now : Int) :
    (applyFrame s img now).1 =
      { s with currentImage := img,
               frameCounter := s.frameCounter + 1,
               frameId := "frame_" ++ Nat.repr (s.frameCounter + 1),
               lastFrameTime := now,
               hasActiveStream := true,
               status := if s.hasActiveStream then s.status
                         else "Streaming (receiving frames)" } := by
  unfold applyFrame
  by_cases h : s.hasActiveStream <;>
    simp [h, setHasActiveStream_fst, setStatus_fst]

/-- The state left by the conditional teardown at the top of `startStream`. -/
def stopIfRunning (s : ReceiverState) : ReceiverState :=
  if s.pipeline.isSome then (stopStream s).1 else s

theorem startStream_parseError_fst (s : ReceiverState) (port : Nat) (msg : String)
    (sf sc : Bool) :
    (startStream s port ⟨Except.error msg, sf, sc⟩).1 =
      { stopIfRunning s with status := "Error: " ++ msg, pipeline := none } := by
  unfold startStream stopIfRunning
  split <;> simp [setStatus_fst]

theorem startStream_ok_fst (s : ReceiverState) (port h : Nat) :
    (startStream s port ⟨Except.ok h, true, true⟩).1 =
      { stopIfRunning s with
        status := "Streaming on port " ++ Nat.repr port,
        pipeline := some { handle := h, port := port },
        live := (stopIfRunning s).live ++ [h],
        appsink := true, bus := true, busTimer := true, frameTimeoutTimer := true,
        lastFrameTime := 0, hasActiveStream := false, isStreaming := true } := by
  unfold startStream stopIfRunning
  split <;> simp [setStatus_fst, setHasActiveStream_fst, setStreaming_fst]

theorem startStream_noSink_fst (s : ReceiverState) (port h : Nat) (sc : Bool) :
    (startStream s port ⟨Except.ok h, false, sc⟩).1 =
      { stopIfRunning s with
        status := "Error: Failed to initialize",
        pipeline := none,
        appsink := false,
        live := ((stopIfRunning s).live ++ [h]).erase h } := by
  unfold startStream stopIfRunning
  split <;> simp [setStatus_fst]

theorem startStream_noPlay_fst (s : ReceiverState) (port h : Nat) :
    (startStream s port ⟨Except.ok h, true, false⟩).1 =
      { stopIfRunning s with
        status := "Stopped",
        pipeline := none,
        live := ((stopIfRunning s).live ++ [h]).erase h,
        appsink := false, bus := false, busTimer := false, frameTimeoutTimer := false,
        lastFrameTime := 0, hasActiveStream := false, isStreaming := false } := by
  unfold startStream stopIfRunning
  split <;>
    simp [setStatus_fst, setHasActiveStream_fst, stopStream_fst]

theorem handleBusMessage_fst (s : ReceiverState) (m : GstMessage) :
    (handleBusMessage s m).1 =
      { s with status :=
          match m with
          | GstMessage.error msg => "Error: " ++ msg
          | GstMessage.eos => "Stream ended"
          | _ => s.status } := by
  cases m <;> simp [handleBusMessage, setStatus_fst]

theorem checkFrameTimeout_fst (s : ReceiverState) (now : Int) :
    (checkFrameTimeout s now).1 = s ∨
    (checkFrameTimeout s now).1 =
      { s with hasActiveStream := false, status := "Waiting for video stream..." } ∨
    (checkFrameTimeout s now).1 =
      { s with hasActiveStream := false, status := "No video stream (timeout)" } := by
  unfold checkFrameTimeout
  split_ifs <;> simp [setHasActiveStream_fst, setStatus_fst]

/-- `t` differs from `s` at most in the status string. -/
def sameExceptStatus (s t : ReceiverState) : Prop :=
  t = { s with status := t.status }

theorem sameExceptStatus_refl (s : ReceiverState) : sameExceptStatus s s := rfl

theorem sameExceptStatus_trans {s t u : ReceiverState}
    (h1 : sameExceptStatus s t) (h2 : sameExceptStatus t u) : sameExceptStatus s u := by
  unfold sameExceptStatus at *
  rw [h2, h1]

theorem handleBusMessage_sameExceptStatus (s : ReceiverState) (m : GstMessage) :
    sameExceptStatus s (handleBusMessage s m).1 := by
  unfold sameExceptStatus
  rw [handleBusMessage_fst]

theorem busFold_sameExceptStatus (msgs : List GstMessage) :
    ∀ p : ReceiverState × List Signal,
      sameExceptStatus p.1
        ((msgs.foldl
          (fun acc m =>
            let r := handleBusMessage acc.1 m
            (r.1, acc.2 ++ r.2)) p).1) := by
  induction msgs with
  | nil => intro p; exact sameExceptStatus_refl p.1
  | cons m rest ih =>
    intro p
    rw [List.foldl_cons]
    exact sameExceptStatus_trans (handleBusMessage_sameExceptStatus p.1 m) (ih _)

theorem checkBusMessages_sameExceptStatus (s : ReceiverState) (msgs : List GstMessage) :
    sameExceptStatus s (checkBusMessages s msgs).1 := by
  unfold checkBusMessages
  split
  · exact sameExceptStatus_refl s
  · exact busFold_sameExceptStatus msgs (s, [])

/-- Whether a signal is the error notification. -/
def isErrorSignal : Signal → Bool := fun g =>
  match g with
  | Signal.errorOccurred _ => true
  | _ => false

theorem filter_isError_setStatus (s : ReceiverState) (v : String) :
    (setStatus s v).2.filter isErrorSignal = [] := by
  rw [setStatus_snd]
  split <;> simp [isErrorSignal]

theorem filter_isError_setStreaming (s : ReceiverState) (b : Bool) :
    (setStreaming s b).2.filter isErrorSignal = [] := by
  rw [setStreaming_snd]
  split <;> simp [isErrorSignal]

theorem filter_isError_setHasActiveStream (s : ReceiverState) (b : Bool) :
    (setHasActiveStream s b).2.filter isErrorSignal = [] := by
  rw [setHasActiveStream_snd]
  split <;> simp [isErrorSignal]

theorem filter_isError_stopStream (s : ReceiverState) :
    (stopStream s).2.filter isErrorSignal = [] := by
  unfold stopStream
  split
  · simp [List.filter_append, filter_isError_setStreaming,
      filter_isError_setHasActiveStream, filter_isError_setStatus]
  · rfl

/-! ### Injectivity of the decimal representation used for frame ids -/

/-- Decimal value of a digit character. -/
def charToDigit (c : Char) : Nat := c.toNat - 48

/-- Left-to-right decimal decoding of a digit string. -/
def decodeDigits : List Char → Nat → Nat
  | [], acc => acc
  | c :: rest, acc => decodeDigits rest (acc * 10 + charToDigit c)

theorem decodeDigits_append (xs ys : List Char) (acc : Nat) :
    decodeDigits (xs ++ ys) acc = decodeDigits ys (decodeDigits xs acc) := by
  induction xs generalizing acc with
  | nil => rfl
  | cons c rest ih => simp [decodeDigits, ih]

theorem toDigitsCore_append (b fuel n : Nat) (ds : List Char) :
    Nat.toDigitsCore b fuel n ds = Nat.toDigitsCore b fuel n [] ++ ds := by
  induction fuel generalizing n ds with
  | zero => simp [Nat.toDigitsCore]
  | succ f ih =>
    simp only [Nat.toDigitsCore]
    split
    · rfl
    · rw [ih (n / b) (Nat.digitChar (n % b) :: ds),
          ih (n / b) (Nat.digitChar (n % b) :: [])]
      simp

theorem charToDigit_digitChar : ∀ d : Nat, d < 10 → charToDigit (Nat.digitChar d) = d := by
  decide

theorem decode_toDigitsCore :
    ∀ fuel n : Nat, n < 10 ^ fuel →
      decodeDigits (Nat.toDigitsCore 10 fuel n []) 0 = n := by
  intro fuel
  induction fuel with
  | zero =>
    intro n h
    have hn : n = 0 := by simpa using Nat.lt_one_iff.mp (by simpa using h)
    subst hn
    rfl
  | succ f ih =>
    intro n h
    simp only [Nat.toDigitsCore]
    split
    · next h0 =>
      have hn : n < 10 := by omega
      simp [decodeDigits, charToDigit_digitChar _ (Nat.mod_lt n (by norm_num))]
      omega
    · next h0 =>
      rw [toDigitsCore_append, decodeDigits_append]
      have hdiv : n / 10 < 10 ^ f := by
        rw [Nat.div_lt_iff_lt_mul (by norm_num)]
        calc n < 10 ^ (f + 1) := h
          _ = 10 ^ f * 10 := by ring
      rw [ih (n / 10) hdiv]
      simp [decodeDigits, charToDigit_digitChar _ (Nat.mod_lt n (by norm_num))]
      omega

theorem decode_toDigits (n : Nat) : decodeDigits (Nat.toDigits 10 n) 0 = n := by
  unfold Nat.toDigits
  exact decode_toDigitsCore (n + 1) n
    (lt_of_lt_of_le (Nat.lt_pow_self (by norm_num) n)
      (Nat.pow_le_pow_right (by norm_num) (Nat.le_succ n)))

theorem natRepr_injective : Function.Injective Nat.repr := by
  intro m n h
  have hlist : Nat.toDigits 10 m = Nat.toDigits 10 n := by
    have hd := congrArg String.data h
    simpa [Nat.repr, List.asString] using hd
  have hm := decode_toDigits m
  rw [hlist, decode_toDigits n] at hm
  exact hm.symm

theorem frameId_ne_of_counter_ne {a b : Nat} (hab : a ≠ b) :
    "frame_" ++ Nat.repr a ≠ "frame_" ++ Nat.repr b := by
  intro h
  apply hab
  apply natRepr_injective
  have hd := congrArg String.data h
  rw [String.data_append, String.data_append] at hd
  have hdata : (Nat.repr a).data = (Nat.repr b).data := List.append_cancel_left hd
  exact String.ext hdata

theorem frame_ne_placeholder (c : Nat) : "frame_" ++ Nat.repr c ≠ "placeholder" := by
  intro h
  have hd := congrArg String.data h
  rw [String.data_append] at hd
  have h1 : "frame_".data = ['f', 'r', 'a', 'm', 'e', '_'] := rfl
  have h2 : "placeholder".data = ['p', 'l', 'a', 'c', 'e', 'h', 'o', 'l', 'd', 'e', 'r'] := rfl
  rw [h1, h2] at hd
  simp at hd

/-! ### State invariants of the receiver -/

/-- The allocation handles held through an optional pipeline. -/
def pipeHandles : Option Pipe → List Nat
  | some p => [p.handle]
  | none => []

/-- Structural invariant of reachable receiver states: a streaming receiver
has a pipeline and a timeout timer; the ghost allocation list matches the
installed pipeline exactly (no leaks, at most one live pipeline); the frame
id is the constructor placeholder or derived from the frame counter. -/
def Inv (s : ReceiverState) : Prop :=
  (s.isStreaming = true → s.pipeline.isSome = true ∧ s.frameTimeoutTimer = true) ∧
  s.live = pipeHandles s.pipeline ∧
  (s.frameId = "placeholder" ∨ s.frameId = "frame_" ++ Nat.repr s.frameCounter)

theorem stopIfRunning_spec (s : ReceiverState) (ih : Inv s) :
    (stopIfRunning s).pipeline = none ∧ (stopIfRunning s).isStreaming = false ∧
    (stopIfRunning s).live = [] ∧ (stopIfRunning s).frameId = s.frameId ∧
    (stopIfRunning s).frameCounter = s.frameCounter ∧
    (stopIfRunning s).currentImage = s.currentImage := by
  unfold stopIfRunning
  cases hp : s.pipeline with
  | none =>
    have hstr : s.isStreaming = false := by
      by_cases hb : s.isStreaming = true
      · exact absurd ((ih.1 hb).1) (by simp [hp])
      · simpa using hb
    have hlive : s.live = [] := by simpa [pipeHandles, hp] using ih.2.1
    simp [hp, hstr, hlive]
  | some p =>
    have hlive : s.live = [p.handle] := by simpa [pipeHandles, hp] using ih.2.1
    simp [hp, stopStream_some s p hp, hlive]

theorem reach_inv {s : ReceiverState} (h : Reach s) : Inv s := by
  induction h with
  | init =>
    refine ⟨by simp [initialState, setStatus_fst], by simp [initialState, setStatus_fst, pipeHandles], ?_⟩
    left
    simp [initialState, setStatus_fst]
  | start s port env hr ih =>
    obtain ⟨pr, sf, sc⟩ := env
    have hstop := stopIfRunning_spec s ih
    cases pr with
    | error msg =>
      rw [startStream_parseError_fst]
      exact ⟨by simp [hstop.2.1], by simp [pipeHandles, hstop.2.2.1], by
        simpa [hstop.2.2.2.1, hstop.2.2.2.2.1] using ih.2.2⟩
    | ok hh =>
      cases sf with
      | false =>
        rw [startStream_noSink_fst]
        refine ⟨by simp [hstop.2.1], ?_, by
          simpa [hstop.2.2.2.1, hstop.2.2.2.2.1] using ih.2.2⟩
        simp [pipeHandles, hstop.2.2.1]
      | true =>
        cases sc with
        | true =>
          rw [startStream_ok_fst]
          refine ⟨by simp, ?_, by
            simpa [hstop.2.2.2.1, hstop.2.2.2.2.1] using ih.2.2⟩
          simp [pipeHandles, hstop.2.2.1]
        | false =>
          rw [startStream_noPlay_fst]
          refine ⟨by simp, ?_, by
            simpa [hstop.2.2.2.1, hstop.2.2.2.2.1] using ih.2.2⟩
          simp [pipeHandles, hstop.2.2.1]
  | stop s hr ih =>
    cases hp : s.pipeline with
    | none => rw [stopStream_none s hp]; exact ih
    | some p =>
      rw [stopStream_some s p hp]
      have hlive : s.live = [p.handle] := by simpa [pipeHandles, hp] using ih.2.1
      exact ⟨by simp, by simp [pipeHandles, hlive], by simpa using ih.2.2⟩
  | frame s img now hr ih =>
    rw [applyFrame_fst]
    refine ⟨?_, by simpa [pipeHandles] using ih.2.1, ?_⟩
    · intro hb
      exact ih.1 (by simpa using hb)
    · right
      simp
  | timeout s now hr ih =>
    rcases checkFrameTimeout_fst s now with h | h | h <;> rw [h] <;>
      exact ⟨fun hb => ih.1 (by simpa using hb), by simpa [pipeHandles] using ih.2.1,
        by simpa using ih.2.2⟩
  | bus s msgs hr ih =>
    have h := checkBusMessages_sameExceptStatus s msgs
    unfold sameExceptStatus at h
    rw [h]
    exact ⟨fun hb => ih.1 (by simpa using hb), by simpa [pipeHandles] using ih.2.1,
      by simpa using ih.2.2⟩

/-! ### Pixel-level facts about buffer conversion and mirroring -/

theorem getD_map_range {α : Type} (f : Nat → α) (n i : Nat) (d : α) (h : i < n) :
    (((List.range n).map f).getD i d) = f i := by
  rw [List.getD_eq_getElem?_getD, List.getElem?_eq_getElem (by simpa using h)]
  simp

theorem getD_reverse {α : Type} (l : List α) (i : Nat) (d : α) (h : i < l.length) :
    l.reverse.getD i d = l.getD (l.length - 1 - i) d := by
  rw [List.getD_eq_getElem?_getD, List.getElem?_eq_getElem (by simpa using h),
    List.getElem_reverse,
    List.getD_eq_getElem?_getD, List.getElem?_eq_getElem (by omega)]

theorem mirrored_both_pixels (img : QImage) :
    (img.mirrored true true).pixels = (img.pixels.map fun r => r.reverse).reverse := by
  unfold QImage.mirrored
  simp

theorem pixelAt_imageFromBuffer (data : List Nat) (w hgt stride a b : Nat)
    (ha : a < w) (hb : b < hgt) :
    (imageFromBuffer data w hgt stride).pixelAt a b =
      (data.getD (b * stride + 3 * a) 0,
       data.getD (b * stride + 3 * a + 1) 0,
       data.getD (b * stride + 3 * a + 2) 0) := by
  unfold imageFromBuffer QImage.pixelAt
  dsimp only
  rw [getD_map_range _ _ _ _ hb, getD_map_range _ _ _ _ ha]

theorem pixelAt_mirrored_both (data : List Nat) (w hgt stride x y : Nat)
    (hx : x < w) (hy : y < hgt) :
    ((imageFromBuffer data w hgt stride).mirrored true true).pixelAt x y =
      (imageFromBuffer data w hgt stride).pixelAt (w - 1 - x) (hgt - 1 - y) := by
  have hy3 : hgt - 1 - y < hgt := by omega
  have hx3 : w - 1 - x < w := by omega
  rw [pixelAt_imageFromBuffer data w hgt stride _ _ hx3 hy3]
  unfold QImage.pixelAt
  rw [mirrored_both_pixels]
  unfold imageFromBuffer
  dsimp only
  rw [List.map_map]
  rw [getD_reverse _ _ _ (by simpa using hy)]
  simp only [List.length_map, List.length_range]
  rw [getD_map_range _ _ _ _ hy3]
  simp only [Function.comp]
  rw [getD_reverse _ _ _ (by simpa using hx)]
  simp only [List.length_map, List.length_range]
  rw [getD_map_range _ _ _ _ hx3]

/-! ### Frame sequences -/

/-- Apply a sequence of consumer-context frame hand-offs (image, timestamp). -/
def applyFrames (s : ReceiverState) (frames : List (QImage × Int)) : ReceiverState :=
  frames.foldl (fun t f => (applyFrame t f.1 f.2).1) s

theorem reach_applyFrames {s : ReceiverState} (hs : Reach s)
    (frames : List (QImage × Int)) : Reach (applyFrames s frames) := by
  induction frames generalizing s with
  | nil => exact hs
  | cons f rest ih =>
    rw [applyFrames, List.foldl_cons]
    exact ih (Reach.frame s f.1 f.2 hs)

theorem applyFrames_append (s : ReceiverState) (l1 l2 : List (QImage × Int)) :
    applyFrames s (l1 ++ l2) = applyFrames (applyFrames s l1) l2 := by
  unfold applyFrames
  exact List.foldl_append _ _ _ _

theorem applyFrames_take_succ (s : ReceiverState) (frames : List (QImage × Int))
    (i : Nat) (hi : i < frames.length) :
    applyFrames s (frames.take (i + 1)) =
      (applyFrame (applyFrames s (frames.take i))
        (frames.get ⟨i, hi⟩).1 (frames.get ⟨i, hi⟩).2).1 := by
  rw [List.take_succ, List.getElem?_eq_getElem hi, applyFrames_append]
  rfl

theorem stopStream_frameId (s : ReceiverState) :
    (stopStream s).1.frameId = s.frameId := by
  rw [stopStream_fst]
  cases s.pipeline <;> rfl

theorem stopIfRunning_frameId (s : ReceiverState) :
    (stopIfRunning s).frameId = s.frameId := by
  unfold stopIfRunning
  split
  · exact stopStream_frameId s
  · rfl

theorem startStream_frameId (s : ReceiverState) (port : Nat) (env : GstEnv) :
    (startStream s port env).1.frameId = s.frameId := by
  obtain ⟨pr, sf, sc⟩ := env
  cases pr with
  | error msg => rw [startStream_parseError_fst]; exact stopIfRunning_frameId s
  | ok h =>
    cases sf with
    | false => rw [startStream_noSink_fst]; exact stopIfRunning_frameId s
    | true =>
      cases sc with
      | true => rw [startStream_ok_fst]; exact stopIfRunning_frameId s
      | false => rw [startStream_noPlay_fst]; exact stopIfRunning_frameId s

theorem checkFrameTimeout_frameId (s : ReceiverState) (now : Int) :
    (checkFrameTimeout s now).1.frameId = s.frameId := by
  rcases checkFrameTimeout_fst s now with h | h | h <;> rw [h]

theorem checkBusMessages_frameId (s : ReceiverState) (msgs : List GstMessage) :
    (checkBusMessages s msgs).1.frameId = s.frameId := by
  have h := checkBusMessages_sameExceptStatus s msgs
  unfold sameExceptStatus at h
  rw [h]

/-! ### Concrete fixtures used by witnesses -/

/-- A fully successful GStreamer environment (fresh handle 1). -/
def okEnv : GstEnv := ⟨Except.ok 1, true, true⟩

/-- A tiny distinguishable frame. -/
def demoImage : QImage := ⟨1, 1, [[(1, 2, 3)]]⟩

/-- A second, different frame. -/
def demoImage2 : QImage := ⟨1, 1, [[(4, 5, 6)]]⟩

/-- Two synthetic frames with distinguishable content. -/
def demoFrames : List (QImage × Int) := [(demoImage, 100), (demoImage2, 200)]

/-! ### The claims -/

/-- **C1** For every reachable state and every sequence of successfully
processed frames, the frame counter grows by exactly one per processed frame
(so the frame identifier strictly increases), the `currentFrame` string
changes at every processed frame, and after each processed frame the
presenter's `requestImage` returns exactly that frame's bytes, never an
older frame.  Conversely no other operation (timeout tick, `stopStream`,
`startStream`, bus polling) changes the frame identifier, so it changes iff
a new frame became current. -/
theorem frame_monotonicity (s : ReceiverState) (hs : Reach s)
    (frames : List (QImage × Int)) :
    (∀ i : Nat, i ≤ frames.length →
      (applyFrames s (frames.take i)).frameCounter = s.frameCounter + i)
    ∧ (∀ i : Nat, ∀ _hi : i < frames.length,
      (applyFrames s (frames.take (i + 1))).frameId
        ≠ (applyFrames s (frames.take i)).frameId)
    ∧ (∀ i : Nat, ∀ hi : i < frames.length, ∀ id rq,
      (requestImage (applyFrames s (frames.take (i + 1))) id rq).1
        = (frames.get ⟨i, hi⟩).1)
    ∧ (∀ now, (checkFrameTimeout s now).1.frameId = s.frameId)
    ∧ (stopStream s).1.frameId = s.frameId
    ∧ (∀ port env, (startStream s port env).1.frameId = s.frameId)
    ∧ (∀ msgs, (checkBusMessages s msgs).1.frameId = s.frameId) := by
  refine ⟨?_, ?_, ?_, checkFrameTimeout_frameId s, stopStream_frameId s,
    startStream_frameId s, checkBusMessages_frameId s⟩
  · intro i
    induction i with
    | zero => intro _; simp [applyFrames]
    | succ n ihn =>
      intro hle
      have hn : n < frames.length := by omega
      rw [applyFrames_take_succ s frames n hn, applyFrame_fst]
      dsimp only
      rw [ihn (by omega)]
      omega
  · intro i hi
    rw [applyFrames_take_succ s frames i hi, applyFrame_fst]
    dsimp only
    have hinv := reach_inv (reach_applyFrames hs (frames.take i))
    rcases hinv.2.2 with h | h
    · rw [h]
      exact frame_ne_placeholder _
    · rw [h]
      exact frameId_ne_of_counter_ne (by omega)
  · intro i hi id rq
    rw [applyFrames_take_succ s frames i hi, applyFrame_fst]
    rfl

/-- Witness for C1: two concrete synthetic frames injected from the
constructor state. -/
theorem frame_monotonicity_witness :
    (applyFrames initialState (demoFrames.take 2)).frameCounter
        = initialState.frameCounter + 2
    ∧ (applyFrames initialState (demoFrames.take 1)).frameId
        ≠ (applyFrames initialState (demoFrames.take 0)).frameId
    ∧ (requestImage (applyFrames initialState (demoFrames.take 2)) "video" (0, 0)).1
        = (demoFrames.get ⟨1, by decide⟩).1 := by
  have h := frame_monotonicity initialState Reach.init demoFrames
  exact ⟨h.1 2 (by decide), h.2.1 0 (by decide), h.2.2.1 1 (by decide) "video" (0, 0)⟩

/-- The state after a successful `startStream(5000)`. -/
def startedState : ReceiverState := (startStream initialState 5000 okEnv).1

/-- One frame received while streaming. -/
def streamedState : ReceiverState := (applyFrame startedState demoImage 100).1

/-- Torn down after a received frame. -/
def stoppedState : ReceiverState := (stopStream streamedState).1

/-- A frame hand-off that was queued before `stopStream` and applied after
teardown (the consumer-context lambda holds no pipeline guard). -/
def lateFrameState : ReceiverState := (applyFrame stoppedState demoImage2 200).1

/-- **C2** (code bug) The claimed invariant `hasActiveStream → isStreaming`
is broken by the code: a frame hand-off queued before `stopStream` and
applied after the pipeline handle was cleared does not defensively no-op —
the queued lambda in `processNewSample` unconditionally sets
`hasActiveStream := true`, yielding a reachable state with
`hasActiveStream = true` and `isStreaming = false`. -/
theorem queuedFrame_after_stop_breaks_invariant :
    Reach lateFrameState
    ∧ stoppedState.pipeline = none
    ∧ stoppedState.isStreaming = false
    ∧ stoppedState.hasActiveStream = false
    ∧ lateFrameState.hasActiveStream = true
    ∧ lateFrameState.isStreaming = false := by
  refine ⟨?_, by decide, by decide, by decide, by decide, by decide⟩
  exact Reach.frame _ _ _ (Reach.stop _ (Reach.frame _ _ _ (Reach.start _ _ _ Reach.init)))

/-- **C3** Calling `startStream(A)` then `startStream(B)` (both succeeding)
without an intervening `stopStream` leaves exactly one live pipeline —
the ghost allocation list holds exactly the handle of the B attempt — bound
to port B, and the receiver streaming. -/
theorem startStream_twice_single_pipeline (s : ReceiverState) (hs : Reach s)
    (a b ha hb : Nat) :
    (startStream (startStream s a ⟨Except.ok ha, true, true⟩).1 b
        ⟨Except.ok hb, true, true⟩).1.pipeline = some { handle := hb, port := b }
    ∧ (startStream (startStream s a ⟨Except.ok ha, true, true⟩).1 b
        ⟨Except.ok hb, true, true⟩).1.live = [hb]
    ∧ (startStream (startStream s a ⟨Except.ok ha, true, true⟩).1 b
        ⟨Except.ok hb, true, true⟩).1.isStreaming = true := by
  have hr1 : Reach (startStream s a ⟨Except.ok ha, true, true⟩).1 :=
    Reach.start s a _ hs
  have hstop2 := stopIfRunning_spec _ (reach_inv hr1)
  rw [startStream_ok_fst]
  exact ⟨by simp, by simp [hstop2.2.2.1], by simp⟩

/-- Witness for C3: two successive successful starts from the constructor
state, with distinct fresh handles. -/
theorem startStream_twice_single_pipeline_witness :
    (startStream (startStream initialState 1 ⟨Except.ok 7, true, true⟩).1 2
        ⟨Except.ok 9, true, true⟩).1.pipeline = some { handle := 9, port := 2 }
    ∧ (startStream (startStream initialState 1 ⟨Except.ok 7, true, true⟩).1 2
        ⟨Except.ok 9, true, true⟩).1.live = [9]
    ∧ (startStream (startStream initialState 1 ⟨Except.ok 7, true, true⟩).1 2
        ⟨Except.ok 9, true, true⟩).1.isStreaming = true :=
  startStream_twice_single_pipeline initialState Reach.init 1 2 7 9

/-- An environment whose pipeline parses but whose sink lookup fails. -/
def noSinkEnv : GstEnv := ⟨Except.ok 1, false, true⟩

/-- **C4 counterexample** A construction failure (missing sink stage) from
the constructor state leaves no pipeline and an `Error:` status, but emits
no error notification at all — refuting the claim that every construction
failure emits one. -/
theorem constructionFailure_without_errorSignal :
    (startStream initialState 5000 noSinkEnv).1.pipeline = none
    ∧ (startStream initialState 5000 noSinkEnv).1.status = "Error: Failed to initialize"
    ∧ ((startStream initialState 5000 noSinkEnv).2.filter isErrorSignal) = [] := by
  refine ⟨by decide, by decide, by decide⟩

/-- **C4 (amended)** If pipeline construction fails during `startStream`,
no pipeline is installed on return and the status is set to an `Error:`
message, so the caller may retry; a parse failure (malformed description)
additionally emits the error notification, while the missing-sink failure
sets status `"Error: Failed to initialize"` without emitting any error
notification. -/
theorem startStream_constructionFailure (s : ReceiverState) (port : Nat)
    (msg : String) (sf sc : Bool) (h : Nat) :
    ((startStream s port ⟨Except.error msg, sf, sc⟩).1.pipeline = none
     ∧ (startStream s port ⟨Except.error msg, sf, sc⟩).1.status = "Error: " ++ msg
     ∧ Signal.errorOccurred ("Failed to create pipeline: " ++ msg)
         ∈ (startStream s port ⟨Except.error msg, sf, sc⟩).2)
    ∧ ((startStream s port ⟨Except.ok h, false, sc⟩).1.pipeline = none
     ∧ (startStream s port ⟨Except.ok h, false, sc⟩).1.status
         = "Error: Failed to initialize"
     ∧ ((startStream s port ⟨Except.ok h, false, sc⟩).2.filter isErrorSignal) = []) := by
  constructor
  · refine ⟨by rw [startStream_parseError_fst], by rw [startStream_parseError_fst], ?_⟩
    unfold startStream
    split <;> simp
  · refine ⟨by rw [startStream_noSink_fst], by rw [startStream_noSink_fst], ?_⟩
    unfold startStream
    split <;>
      simp [List.filter_append, filter_isError_stopStream, filter_isError_setStatus]

/-- **C5** In every reachable state: when not streaming, the timeout tick is
a no-op; when streaming with a received frame (`lastFrameTime ≠ 0`), more
than 3000 ms elapsed and `hasActiveStream` still true, the tick flips
`hasActiveStream` to false and sets status `"No video stream (timeout)"`
without changing `isStreaming`. -/
theorem checkFrameTimeout_spec (s : ReceiverState) (hs : Reach s) (now : Int) :
    (s.isStreaming = false → checkFrameTimeout s now = (s, []))
    ∧ (s.isStreaming = true → s.lastFrameTime ≠ 0 →
        now - s.lastFrameTime > 3000 → s.hasActiveStream = true →
        (checkFrameTimeout s now).1.hasActiveStream = false
        ∧ (checkFrameTimeout s now).1.status = "No video stream (timeout)"
        ∧ (checkFrameTimeout s now).1.isStreaming = s.isStreaming) := by
  constructor
  · intro h
    unfold checkFrameTimeout
    rw [if_pos]
    left
    simp [h]
  · intro hstr hlast h3 hact
    have hinv := reach_inv hs
    obtain ⟨p, hp⟩ := Option.isSome_iff_exists.mp (hinv.1 hstr).1
    have ht := (hinv.1 hstr).2
    unfold checkFrameTimeout
    rw [if_neg (by simp [hstr, ht, hp]), if_neg hlast, if_pos h3, if_pos (by simp [hact])]
    simp [setHasActiveStream_fst, setStatus_fst]

/-- Witness for C5: a started stream that saw one frame at t = 100 ms and is
ticked at t = 4000 ms. -/
theorem checkFrameTimeout_spec_witness :
    (checkFrameTimeout streamedState 4000).1.hasActiveStream = false
    ∧ (checkFrameTimeout streamedState 4000).1.status = "No video stream (timeout)"
    ∧ (checkFrameTimeout streamedState 4000).1.isStreaming = streamedState.isStreaming := by
  have hr : Reach streamedState :=
    Reach.frame _ _ _ (Reach.start _ _ _ Reach.init)
  exact (checkFrameTimeout_spec streamedState hr 4000).2
    (by decide) (by decide) (by decide) (by decide)

/-- **C6** `stopStream` is idempotent and frame-preserving in every reachable
state: with no pipeline it returns the state unchanged, emits nothing and
`isStreaming` is (already) false; with a pipeline it clears `isStreaming`
and `hasActiveStream` and sets status `"Stopped"`; in both cases the last
decoded image, the frame id and the frame counter are untouched. -/
theorem stopStream_spec (s : ReceiverState) (hs : Reach s) :
    (s.pipeline = none → stopStream s = (s, []) ∧ s.isStreaming = false)
    ∧ (s.pipeline.isSome = true →
        (stopStream s).1.isStreaming = false
        ∧ (stopStream s).1.hasActiveStream = false
        ∧ (stopStream s).1.status = "Stopped")
    ∧ (stopStream s).1.currentImage = s.currentImage
    ∧ (stopStream s).1.frameId = s.frameId
    ∧ (stopStream s).1.frameCounter = s.frameCounter := by
  refine ⟨?_, ?_, ?_, stopStream_frameId s, ?_⟩
  · intro hp
    refine ⟨stopStream_none s hp, ?_⟩
    by_cases hb : s.isStreaming = true
    · exact absurd ((reach_inv hs).1 hb).1 (by simp [hp])
    · simpa using hb
  · intro hp
    obtain ⟨p, hp2⟩ := Option.isSome_iff_exists.mp hp
    rw [stopStream_some s p hp2]
    exact ⟨rfl, rfl, rfl⟩
  · rw [stopStream_fst]
    cases s.pipeline <;> rfl
  · rw [stopStream_fst]
    cases s.pipeline <;> rfl

/-- Witness for C6: stopping the constructor state (no pipeline) changes
nothing, emits nothing, and keeps the frame fields. -/
theorem stopStream_spec_witness :
    stopStream initialState = (initialState, [])
    ∧ initialState.isStreaming = false
    ∧ (stopStream initialState).1.frameCounter = 0 := by
  have h := stopStream_spec initialState Reach.init
  have h1 := h.1 (by decide)
  exact ⟨h1.1, h1.2, by rw [h1.1]; decide⟩

/-- **C7** Handling a bus Error message sets status `"Error: <message>"` and
emits the error notification, but tears nothing down: the pipeline handle,
the streaming flag and the allocation list are untouched (report, do not
auto-recover). -/
theorem busError_reports_without_teardown (s : ReceiverState) (msg : String) :
    (handleBusMessage s (GstMessage.error msg)).1.status = "Error: " ++ msg
    ∧ Signal.errorOccurred ("GStreamer error: " ++ msg)
        ∈ (handleBusMessage s (GstMessage.error msg)).2
    ∧ (handleBusMessage s (GstMessage.error msg)).1.pipeline = s.pipeline
    ∧ (handleBusMessage s (GstMessage.error msg)).1.isStreaming = s.isStreaming
    ∧ (handleBusMessage s (GstMessage.error msg)).1.live = s.live := by
  refine ⟨by rw [handleBusMessage_fst], ?_, by rw [handleBusMessage_fst],
    by rw [handleBusMessage_fst], by rw [handleBusMessage_fst]⟩
  unfold handleBusMessage
  simp

/-- **C8** `requestImage` semantically ignores its identifier (and requested
size) arguments, and in the constructor state — before any `startStream` or
frame — it returns the fixed 640x480 solid black placeholder with its
dimensions, not an error and not null. -/
theorem requestImage_spec (s : ReceiverState) (id1 id2 : String)
    (rq1 rq2 : Nat × Nat) :
    requestImage s id1 rq1 = requestImage s id2 rq2
    ∧ (requestImage initialState id1 rq1).1 = QImage.mkSolid 640 480 (0, 0, 0)
    ∧ (requestImage initialState id1 rq1).1.pixels
        = List.replicate 480 (List.replicate 640 (0, 0, 0))
    ∧ (requestImage initialState id1 rq1).2 = (640, 480) := by
  refine ⟨rfl, rfl, rfl, rfl⟩

/-- **C9** A successfully processed sample stores exactly the deep-copied
buffer image mirrored both horizontally and vertically: the queued image's
pixel `(x, y)` equals the raw buffer pixel `(w-1-x, h-1-y)`, whose bytes sit
at offset `(h-1-y)*stride + 3*(w-1-x)` of the raw data. -/
theorem processNewSample_mirrors (data : List Nat) (w hgt stride x y : Nat)
    (hx : x < w) (hy : y < hgt) :
    processNewSample ⟨some data, some ⟨some ⟨w, hgt, stride⟩⟩, true⟩
        = some ((imageFromBuffer data w hgt stride).mirrored true true)
    ∧ ((imageFromBuffer data w hgt stride).mirrored true true).pixelAt x y
        = (imageFromBuffer data w hgt stride).pixelAt (w - 1 - x) (hgt - 1 - y)
    ∧ (imageFromBuffer data w hgt stride).pixelAt (w - 1 - x) (hgt - 1 - y)
        = (data.getD ((hgt - 1 - y) * stride + 3 * (w - 1 - x)) 0,
           data.getD ((hgt - 1 - y) * stride + 3 * (w - 1 - x) + 1) 0,
           data.getD ((hgt - 1 - y) * stride + 3 * (w - 1 - x) + 2) 0) := by
  refine ⟨rfl, pixelAt_mirrored_both data w hgt stride x y hx hy, ?_⟩
  exact pixelAt_imageFromBuffer data w hgt stride _ _ (by omega) (by omega)

/-- An asymmetric 2x2 test pattern (stride 6, 3 bytes per pixel). -/
def demoBuffer : List Nat := [0, 1, 2, 3, 4, 5, 10, 11, 12, 13, 14, 15]

/-- Witness for C9 on the 2x2 asymmetric test pattern: processing succeeds
and pixel (0,0) of the processed frame is raw pixel (1,1). -/
theorem processNewSample_mirrors_witness :
    processNewSample ⟨some demoBuffer, some ⟨some ⟨2, 2, 6⟩⟩, true⟩
        = some ((imageFromBuffer demoBuffer 2 2 6).mirrored true true)
    ∧ ((imageFromBuffer demoBuffer 2 2 6).mirrored true true).pixelAt 0 0
        = (imageFromBuffer demoBuffer 2 2 6).pixelAt 1 1
    ∧ (imageFromBuffer demoBuffer 2 2 6).pixelAt 1 1
        = (demoBuffer.getD 9 0, demoBuffer.getD 10 0, demoBuffer.getD 11 0) := by
  have h := processNewSample_mirrors demoBuffer 2 2 6 0 0 (by decide) (by decide)
  exact ⟨h.1, h.2.1, h.2.2⟩

/-- **C10** Every state setter is change-detecting: called with the current
value it changes nothing and emits nothing; called with a different value it
updates the field and emits exactly its one change signal. -/
theorem setters_emit_iff_changed (s : ReceiverState) (v : String) (b : Bool) :
    (v = s.status → setStatus s v = (s, []))
    ∧ (v ≠ s.status →
        setStatus s v = ({ s with status := v }, [Signal.statusChanged]))
    ∧ (b = s.isStreaming → setStreaming s b = (s, []))
    ∧ (b ≠ s.isStreaming →
        setStreaming s b = ({ s with isStreaming := b }, [Signal.streamingChanged]))
    ∧ (b = s.hasActiveStream → setHasActiveStream s b = (s, []))
    ∧ (b ≠ s.hasActiveStream →
        setHasActiveStream s b
          = ({ s with hasActiveStream := b }, [Signal.hasActiveStreamChanged])) := by
  refine ⟨?_, ?_, ?_, ?_, ?_, ?_⟩
  · intro h
    subst h
    unfold setStatus
    simp
  · intro h
    unfold setStatus
    rw [if_pos (Ne.symm h)]
  · intro h
    subst h
    unfold setStreaming
    simp
  · intro h
    unfold setStreaming
    rw [if_pos (Ne.symm h)]
  · intro h
    subst h
    unfold setHasActiveStream
    simp
  · intro h
    unfold setHasActiveStream
    rw [if_pos (Ne.symm h)]

/-- Witness for C10: each setter exercised on the constructor state with an
equal and with a different value. -/
theorem setters_emit_iff_changed_witness :
    (setStatus initialState "Ready").2 = []
    ∧ (setStatus initialState "Streaming").2 = [Signal.statusChanged]
    ∧ (setStreaming initialState false).2 = []
    ∧ (setStreaming initialState true).2 = [Signal.streamingChanged]
    ∧ (setHasActiveStream initialState false).2 = []
    ∧ (setHasActiveStream initialState true).2 = [Signal.hasActiveStreamChanged] := by
  have h1 := setters_emit_iff_changed initialState "Ready" false
  have h2 := setters_emit_iff_changed initialState "Streaming" true
  refine ⟨?_, ?_, ?_, ?_, ?_, ?_⟩
  · rw [h1.1 (by decide)]
  · rw [h2.2.1 (by decide)]
  · rw [h1.2.2.1 (by decide)]
  · rw [h2.2.2.2.1 (by decide)]
  · rw [h1.2.2.2.2.1 (by decide)]
  · rw [h2.2.2.2.2.2 (by decide)]

end Driver
